import Mathlib

/-!
Shallow embedding of the InvoyQ authentication core
(backend/app/api/v1/auth.py, backend/app/repositories/refresh_token_repository.py,
backend/app/repositories/user_repository.py, backend/app/dependencies/auth.py).

Time is modelled as `Nat` (seconds); `datetime.utcnow()` becomes an explicit
`now` parameter. The MongoDB collections become Lean lists in insertion order:
`find_one` is `List.find?`, `update_one` updates the first match and reports
whether the stored document actually changed (Mongo's `modified_count`),
`update_many` maps over all matches, `insert_one` appends.
Randomly generated strings (`secrets.token_urlsafe`) and fresh document ids are
explicit parameters. Python truthiness of optional strings (`if not x:` is true
for both `None` and `""`) is `pyTruthy`.
-/

/-- Python truthiness of an `Optional[str]`: `None` and `""` are falsy. -/
def pyTruthy : Option String → Bool
  | none => false
  | some s => s ≠ ""

/-- Settings fields consumed by the auth core (app/core/config.py).
Durations are converted to seconds where the source builds a `timedelta`. -/
structure Settings where
  SECRET_KEY : String
  ALGORITHM : String
  ACCESS_TOKEN_EXPIRE_MINUTES : Nat
  REFRESH_TOKEN_EXPIRE_DAYS : Nat
deriving Repr, DecidableEq

/-- A JWT claim value: the auth core only stores strings and timestamps. -/
inductive Claim where
  | str : String → Claim
  | time : Nat → Claim
deriving Repr, DecidableEq

/-- Modelled from the spec: the `python-jose` signed token (external library,
not under the backend source tree).  Per spec §4.1 the Token Signer "embeds
subject and absolute expiry; signs with a server-held secret using a fixed,
configured algorithm"; verification is purely signature + payload checks, so a
signed token is modelled as its payload together with the key and algorithm it
was signed with. -/
structure Jwt where
  payload : List (String × Claim)
  key : String
  alg : String
deriving Repr, DecidableEq

namespace Jwt

/-- Python dict `update`: replace the value at an existing key in place,
otherwise append the binding. -/
def dictUpdate (d : List (String × Claim)) (k : String) (v : Claim) :
    List (String × Claim) :=
  if d.any (fun p => p.1 == k) then
    d.map (fun p => if p.1 == k then (k, v) else p)
  else d ++ [(k, v)]

/-- `jose.jwt.encode(claims, key, algorithm)`. -/
def encode (payload : List (String × Claim)) (key alg : String) : Jwt :=
  ⟨payload, key, alg⟩

/-- Errors of the token signer, per spec §4.1. -/
inductive JwtError where
  | invalidToken
  | expired
deriving Repr, DecidableEq

/-- Modelled from the spec: `jose.jwt.decode(token, key, algorithms)` (external
library, not under the backend source tree).  Spec §4.1: verify "fails with
`InvalidToken` when signature check fails or payload is malformed; fails with
`Expired` when the embedded expiry is in the past relative to verification
time. Succeeds returning the subject claim."  The signature check passes iff
the token was signed with the same key and algorithm. -/
def decode (tok : Jwt) (key alg : String) (now : Nat) :
    Except JwtError (List (String × Claim)) :=
  if tok.key ≠ key ∨ tok.alg ≠ alg then .error .invalidToken
  else
    match (tok.payload.find? (fun p => p.1 == "exp")).map Prod.snd with
    | some (.time e) => if e < now then .error .expired else .ok tok.payload
    | some (.str _) => .error .invalidToken
    | none => .ok tok.payload

end Jwt

/-- Refresh token document (RefreshTokenInDB). -/
structure RefreshTokenRec where
  id : Nat
  user_id : String
  token : String
  expires_at : Nat
  created_at : Nat
  revoked : Bool := false
  revoked_at : Option Nat := none
  replaced_by_token : Option String := none
  device_id : Option String := none
deriving Repr, DecidableEq

/-- The `refresh_tokens` collection, in insertion order. -/
abbrev Ledger := List RefreshTokenRec

/-- Mongo `update_one`: rewrite the first document matching `p` with `f`,
returning the new collection and whether `modified_count > 0`
(a matched document counts as modified only if the update changed it). -/
def updateFirst (p : RefreshTokenRec → Bool) (f : RefreshTokenRec → RefreshTokenRec) :
    Ledger → Ledger × Bool
  | [] => ([], false)
  | x :: xs =>
    if p x then ((f x) :: xs, f x ≠ x)
    else
      let r := updateFirst p f xs
      (x :: r.1, r.2)

namespace RefreshTokenRepository

/-- `RefreshTokenRepository.get_by_token`: `find_one({"token": token})`. -/
def get_by_token (l : Ledger) (token : String) : Option RefreshTokenRec :=
  l.find? (fun d => d.token == token)

/-- `RefreshTokenRepository.create_refresh_token`: inserts one live document.
`tok` stands for the freshly generated `secrets.token_urlsafe(64)` string and
`newId` for the inserted document id. -/
def create_refresh_token (l : Ledger) (user_id : String) (tok : String)
    (expires_delta : Nat) (device_id : Option String) (now newId : Nat) :
    Ledger × RefreshTokenRec :=
  let doc : RefreshTokenRec :=
    { id := newId, user_id := user_id, token := tok,
      expires_at := now + expires_delta, created_at := now,
      revoked := false, revoked_at := none,
      replaced_by_token := none, device_id := device_id }
  (l ++ [doc], doc)

/-- The `$set` document built by `revoke_token`: always `revoked: true` and a
fresh `revoked_at`; the forward pointer only when `replaced_by_token` is
truthy (`if replaced_by_token:`). -/
def applyRevokeSet (now : Nat) (replaced_by : Option String)
    (d : RefreshTokenRec) : RefreshTokenRec :=
  let d1 := { d with revoked := true, revoked_at := some now }
  if pyTruthy replaced_by then { d1 with replaced_by_token := replaced_by }
  else d1

/-- `RefreshTokenRepository.revoke_token`: `update_one({"token": token},
{"$set": ...})`, returning `modified_count > 0`. -/
def revoke_token (l : Ledger) (token : String) (replaced_by : Option String)
    (now : Nat) : Ledger × Bool :=
  updateFirst (fun d => d.token == token) (applyRevokeSet now replaced_by) l

/-- `RefreshTokenRepository.revoke_all_user_tokens`:
`update_many({"user_id": user_id, "revoked": False}, {"$set": ...})`,
returning the new collection and `modified_count`. -/
def revoke_all_user_tokens (l : Ledger) (user_id : String) (now : Nat) :
    Ledger × Nat :=
  (l.map (fun d =>
      if d.user_id == user_id && d.revoked == false then
        { d with revoked := true, revoked_at := some now }
      else d),
   (l.filter (fun d => d.user_id == user_id && d.revoked == false)).length)

/-- `RefreshTokenRepository.detect_token_reuse`. -/
def detect_token_reuse (l : Ledger) (token : String) : Bool :=
  match get_by_token l token with
  | none => false
  | some d => d.revoked && d.replaced_by_token.isSome

/-- `RefreshTokenRepository.is_valid`. -/
def is_valid (l : Ledger) (token : String) (now : Nat) : Bool :=
  match get_by_token l token with
  | none => false
  | some d =>
    if d.revoked then false
    else if d.expires_at < now then false
    else true

end RefreshTokenRepository

/-- User document (UserInDB), restricted to the fields the auth core reads. -/
structure UserRec where
  id : String
  email : String
  full_name : String
  hashed_password : Option String := none
  is_verified : Bool := false
  is_active : Bool := true
  oauth_provider : Option String := none
  oauth_provider_id : Option String := none
  avatar_url : Option String := none
deriving Repr, DecidableEq

/-- The `users` collection, in insertion order. -/
abbrev UserStore := List UserRec

namespace UserRepository

/-- `UserRepository.get_by_email`: `find_one({"email": email})`. -/
def get_by_email (us : UserStore) (email : String) : Option UserRec :=
  us.find? (fun u => u.email == email)

end UserRepository

/-- The errors the auth handlers raise (`fastapi.HTTPException`). -/
structure HTTPException where
  status_code : Nat
  detail : String
deriving Repr, DecidableEq

/-- Successful login/refresh response body (schema `Token`). -/
structure TokenPair where
  access_token : Jwt
  refresh_token : String
  token_type : String
deriving Repr, DecidableEq

/-- `create_access_token` (auth.py): copies the claims, adds the absolute
expiry and signs.  Python evaluates `expires_delta or default`, so a zero
delta also falls back to the configured default. -/
def create_access_token (st : Settings) (data : List (String × Claim))
    (expires_delta : Option Nat) (now : Nat) : Jwt :=
  let delta :=
    match expires_delta with
    | some d => if d ≠ 0 then d else st.ACCESS_TOKEN_EXPIRE_MINUTES * 60
    | none => st.ACCESS_TOKEN_EXPIRE_MINUTES * 60
  Jwt.encode (Jwt.dictUpdate data "exp" (.time (now + delta)))
    st.SECRET_KEY st.ALGORITHM

/-- The `login` handler (auth.py lines 89-123).  `vp` abstracts
`verify_password` from app/core/security.py (the hash comparison itself is
outside the embedded source; `login` only branches on its boolean result).
`genTok`/`newId` stand for the generated refresh-token string and document id,
and the handler returns the response body together with the updated ledger.
Python evaluates `not user or not user.hashed_password or not
verify_password(...)` with short-circuit truthiness, so a missing user, a
missing or empty stored hash, and a failed password check all raise the same
exception. -/
def login (st : Settings) (vp : String → String → Bool) (users : UserStore)
    (l : Ledger) (username password : String) (x_device_id : Option String)
    (genTok : String) (now newId : Nat) :
    Except HTTPException (TokenPair × Ledger) :=
  match UserRepository.get_by_email users username with
  | none => .error ⟨401, "Incorrect email or password"⟩
  | some user =>
    if !pyTruthy user.hashed_password then
      .error ⟨401, "Incorrect email or password"⟩
    else if !vp password (user.hashed_password.getD "") then
      .error ⟨401, "Incorrect email or password"⟩
    else if !user.is_verified then
      .error ⟨403, "Email not verified. Please check your email for verification link."⟩
    else
      let access_token := create_access_token st [("sub", .str user.id)] none now
      let created := RefreshTokenRepository.create_refresh_token l user.id
        genTok (st.REFRESH_TOKEN_EXPIRE_DAYS * 86400) x_device_id now newId
      .ok (⟨access_token, created.2.token, "bearer"⟩, created.1)

/-- The `refresh_token` handler (auth.py lines 292-354).  The handler has
access to the whole database; `users` is passed to witness that the outcome
never depends on it.  Returns the response (or raised exception) together with
the ledger as left behind, since the reuse branch mutates state before
raising. -/
def refresh_handler (st : Settings) (users : UserStore) (l : Ledger)
    (presented : String) (x_device_id : Option String) (genTok : String)
    (now newId : Nat) : Except HTTPException TokenPair × Ledger :=
  if RefreshTokenRepository.detect_token_reuse l presented then
    let l2 :=
      match RefreshTokenRepository.get_by_token l presented with
      | some d => (RefreshTokenRepository.revoke_all_user_tokens l d.user_id now).1
      | none => l
    (.error ⟨401, "Token reuse detected. All sessions have been revoked for security."⟩, l2)
  else if !RefreshTokenRepository.is_valid l presented now then
    (.error ⟨401, "Invalid or expired refresh token"⟩, l)
  else
    match RefreshTokenRepository.get_by_token l presented with
    | none => (.error ⟨401, "Invalid refresh token"⟩, l)
    | some token_doc =>
      let access_token :=
        create_access_token st [("sub", .str token_doc.user_id)] none now
      let created := RefreshTokenRepository.create_refresh_token l
        token_doc.user_id genTok (st.REFRESH_TOKEN_EXPIRE_DAYS * 86400)
        (if pyTruthy x_device_id then x_device_id else token_doc.device_id)
        now newId
      let revoked := RefreshTokenRepository.revoke_token created.1 presented
        (some created.2.token) now
      (.ok ⟨access_token, created.2.token, "bearer"⟩, revoked.1)

/-- The `logout` handler (auth.py lines 357-370): revokes the presented token
with no replacement pointer and always reports success. -/
def logout_handler (l : Ledger) (token : String) (now : Nat) :
    String × Ledger :=
  ("Logged out successfully", (RefreshTokenRepository.revoke_token l token none now).1)

/-- The update applied by `google_callback` (auth.py lines 247-262) to an
existing user: the net effect of building `update_data` and writing it back.
`google_user_id`, `avatar_url` and `email_verified` come from the verified
Google id token. -/
def google_update_existing (user : UserRec) (google_user_id : String)
    (avatar_url : Option String) (email_verified : Bool) : UserRec :=
  let u1 :=
    if !pyTruthy user.oauth_provider then
      { user with oauth_provider := some "google",
                  oauth_provider_id := some google_user_id }
    else user
  let u2 :=
    if !pyTruthy user.avatar_url && pyTruthy avatar_url then
      { u1 with avatar_url := avatar_url }
    else u1
  if email_verified && !user.is_verified then { u2 with is_verified := true }
  else u2

/-- Token verification as performed by `get_current_user`
(app/dependencies/auth.py lines 22-28) down to the subject claim: decode with
the configured key and algorithm, then read `payload.get("sub")`. -/
def verify_access_token (st : Settings) (tok : Jwt) (now : Nat) :
    Except Jwt.JwtError String :=
  match Jwt.decode tok st.SECRET_KEY st.ALGORITHM now with
  | .error e => .error e
  | .ok payload =>
    match (payload.find? (fun p => p.1 == "sub")).map Prod.snd with
    | some (.str s) => .ok s
    | _ => .error .invalidToken

/-! ### Helper lemmas about the embedded Mongo operations -/

namespace RefreshTokenRepository

theorem find?_updateFirst_self (p : RefreshTokenRec → Bool)
    (f : RefreshTokenRec → RefreshTokenRec) (hf : ∀ d, p (f d) = p d)
    (l : Ledger) : (updateFirst p f l).1.find? p = (l.find? p).map f := by
  induction l with
  | nil => rfl
  | cons x xs ih =>
    by_cases hx : p x = true
    · simp only [updateFirst, hx, if_pos]
      rw [List.find?_cons_of_pos _ ((hf x).trans hx),
        List.find?_cons_of_pos _ hx]
      rfl
    · simp only [updateFirst, hx, if_neg, Bool.false_eq_true,
        not_false_iff]
      rw [List.find?_cons_of_neg _ (by simp [hx]),
        List.find?_cons_of_neg _ (by simp [hx])]
      exact ih

theorem find?_updateFirst_of_none (p q : RefreshTokenRec → Bool)
    (f : RefreshTokenRec → RefreshTokenRec) (hf : ∀ d, q (f d) = q d)
    (l : Ledger) (h : l.find? q = none) :
    (updateFirst p f l).1.find? q = none := by
  induction l with
  | nil => rfl
  | cons x xs ih =>
    rw [List.find?_cons] at h
    by_cases hq : q x = true
    · simp [hq] at h
    · by_cases hp : p x = true
      · simp only [updateFirst, hp, if_pos]
        rw [List.find?_cons_of_neg _ (by simp [hf, hq])]
        simpa [hq] using h
      · simp only [updateFirst, hp, if_neg, Bool.false_eq_true, not_false_iff]
        rw [List.find?_cons_of_neg _ (by simp [hq])]
        exact ih (by simpa [hq] using h)

theorem updateFirst_append_of_found (p : RefreshTokenRec → Bool)
    (f : RefreshTokenRec → RefreshTokenRec) (l1 l2 : Ledger)
    (h : (l1.find? p).isSome) :
    (updateFirst p f (l1 ++ l2)).1 = (updateFirst p f l1).1 ++ l2 := by
  induction l1 with
  | nil => simp [List.find?] at h
  | cons x xs ih =>
    by_cases hx : p x = true
    · simp [updateFirst, hx]
    · rw [List.find?_cons_of_neg _ (by simp [hx])] at h
      simp only [List.cons_append, updateFirst, hx, if_neg,
        Bool.false_eq_true, not_false_iff]
      rw [List.append_eq, ih h]

theorem applyRevokeSet_token (now : Nat) (r : Option String)
    (d : RefreshTokenRec) : (applyRevokeSet now r d).token = d.token := by
  unfold applyRevokeSet
  by_cases h : pyTruthy r = true <;> simp [h]

/-- Characterisation of `is_valid` in terms of the stored document. -/
theorem is_valid_iff (l : Ledger) (t : String) (now : Nat) :
    is_valid l t now = true ↔
      ∃ d, get_by_token l t = some d ∧ d.revoked = false ∧
        ¬(d.expires_at < now) := by
  unfold is_valid
  cases h : get_by_token l t with
  | none => simp
  | some d =>
    constructor
    · intro hv
      refine ⟨d, rfl, ?_, ?_⟩ <;>
        by_cases h1 : d.revoked = true <;>
        by_cases h2 : d.expires_at < now <;>
        simp_all
    · rintro ⟨d2, hd2, hrev, hexp⟩
      cases hd2
      simp [hrev, hexp]

/-- Characterisation of `detect_token_reuse` in terms of the stored
document. -/
theorem detect_token_reuse_iff (l : Ledger) (t : String) :
    detect_token_reuse l t = true ↔
      ∃ d, get_by_token l t = some d ∧ d.revoked = true ∧
        d.replaced_by_token ≠ none := by
  unfold detect_token_reuse
  cases h : get_by_token l t with
  | none => simp
  | some d =>
    constructor
    · intro hv
      exact ⟨d, rfl, by simpa using (Bool.and_eq_true ..).mp hv |>.1,
        by simpa [Option.isSome_iff_ne_none] using
          (Bool.and_eq_true ..).mp hv |>.2⟩
    · rintro ⟨d2, hd2, hrev, hrep⟩
      cases hd2
      simp [hrev, Option.isSome_iff_ne_none, hrep]

/-- Every token of the targeted user is revoked after
`revoke_all_user_tokens`. -/
theorem revoke_all_revokes (l : Ledger) (uid : String) (now : Nat) :
    ∀ r ∈ (revoke_all_user_tokens l uid now).1,
      r.user_id = uid → r.revoked = true := by
  intro r hr huid
  simp only [revoke_all_user_tokens, List.mem_map] at hr
  obtain ⟨a, _, rfl⟩ := hr
  by_cases h : (a.user_id == uid && a.revoked == false) = true
  · rw [if_pos h]
  · rw [if_neg h] at huid ⊢
    rcases hrev : a.revoked with _ | _
    · exact absurd (by simp [huid, hrev]) h
    · rfl

end RefreshTokenRepository

namespace RefreshTokenRepository

theorem updateFirst_snd_iff (p : RefreshTokenRec → Bool)
    (f : RefreshTokenRec → RefreshTokenRec) (l : Ledger) :
    (updateFirst p f l).2 = true ↔
      ∃ x, l.find? p = some x ∧ f x ≠ x := by
  induction l with
  | nil => simp [updateFirst]
  | cons x xs ih =>
    by_cases hx : p x = true
    · simp only [updateFirst, hx, if_pos]
      rw [List.find?_cons_of_pos _ hx]
      constructor
      · intro h
        exact ⟨x, rfl, by simpa using h⟩
      · rintro ⟨y, hy, hne⟩
        cases Option.some.inj hy
        simpa using hne
    · simp only [updateFirst, hx, if_neg, Bool.false_eq_true, not_false_iff]
      rw [List.find?_cons_of_neg _ (by simp [hx])]
      exact ih

theorem applyRevokeSet_revoked_at (now : Nat) (r : Option String)
    (d : RefreshTokenRec) : (applyRevokeSet now r d).revoked_at = some now := by
  unfold applyRevokeSet
  by_cases h : pyTruthy r = true <;> simp [h]

theorem applyRevokeSet_revoked (now : Nat) (r : Option String)
    (d : RefreshTokenRec) : (applyRevokeSet now r d).revoked = true := by
  unfold applyRevokeSet
  by_cases h : pyTruthy r = true <;> simp [h]

theorem applyRevokeSet_none (now : Nat) (d : RefreshTokenRec) :
    applyRevokeSet now none d =
      { d with revoked := true, revoked_at := some now } := by
  unfold applyRevokeSet
  simp [pyTruthy]

/-- The first document stored under `t` after `revoke_token` is the old one
with the `$set` document applied. -/
theorem get_by_token_revoke_token (l : Ledger) (t : String)
    (rby : Option String) (now : Nat) (d : RefreshTokenRec)
    (h : get_by_token l t = some d) :
    get_by_token (revoke_token l t rby now).1 t =
      some (applyRevokeSet now rby d) := by
  unfold revoke_token
  unfold get_by_token at h ⊢
  rw [find?_updateFirst_self _ _
    (fun x => by simp [applyRevokeSet_token]), h]
  rfl

end RefreshTokenRepository

/-! ### The claims -/

/-- Claim C5: for every token string T and ledger state, `is_valid(T)` is
true iff a record for T exists, its revoked flag is false, and its expiry has
not yet passed at call time; a missing record always yields false (fails
closed). -/
theorem C5_is_valid_characterisation (l : Ledger) (t : String) (now : Nat) :
    (RefreshTokenRepository.is_valid l t now = true ↔
      ∃ d, RefreshTokenRepository.get_by_token l t = some d ∧
        d.revoked = false ∧ ¬(d.expires_at < now)) ∧
    (RefreshTokenRepository.get_by_token l t = none →
      RefreshTokenRepository.is_valid l t now = false) := by
  refine ⟨RefreshTokenRepository.is_valid_iff l t now, fun h => ?_⟩
  unfold RefreshTokenRepository.is_valid
  rw [h]

/-- A live refresh-token document used to instantiate the theorems on
concrete inputs. -/
def sampleLive : RefreshTokenRec :=
  { id := 1, user_id := "alice", token := "R", expires_at := 1000,
    created_at := 0 }

/-- Concrete instantiation of the C5 theorem: a live unexpired record is
valid. -/
theorem C5_witness :
    RefreshTokenRepository.is_valid [sampleLive] "R" 50 = true :=
  (C5_is_valid_characterisation [sampleLive] "R" 50).1.mpr
    ⟨sampleLive, by decide, rfl, by decide⟩

/-- Claim C6 counterexample: revoking an already-revoked token again at a
later wall-clock time is NOT a no-op returning false — the update rewrites
`revoked_at`, so `modified_count` is 1 and the call returns true. -/
theorem C6_counterexample :
    (RefreshTokenRepository.revoke_token
        (RefreshTokenRepository.revoke_token [sampleLive] "R" none 5).1
        "R" none 6).2 = true ∧
    (RefreshTokenRepository.revoke_token
        (RefreshTokenRepository.revoke_token [sampleLive] "R" none 5).1
        "R" none 6).1 ≠
      (RefreshTokenRepository.revoke_token [sampleLive] "R" none 5).1 := by
  decide

/-- Claim C6 (amended): `revoke(token, replaced_by?)` sets revoked=true, a
revocation timestamp, and optionally the forward pointer; it returns false
exactly when no record matches the token or the update changes nothing (for
example re-revoking with an identical timestamp and no new pointer); a second
revocation at a different timestamp rewrites `revoked_at`, modifies the
stored record and returns true. -/
theorem C6_amended_revoke_semantics (l : Ledger) (t : String)
    (rby : Option String) (now : Nat) :
    ((RefreshTokenRepository.revoke_token l t rby now).2 = true ↔
      ∃ d, RefreshTokenRepository.get_by_token l t = some d ∧
        RefreshTokenRepository.applyRevokeSet now rby d ≠ d) ∧
    (∀ d, RefreshTokenRepository.get_by_token l t = some d →
      RefreshTokenRepository.get_by_token
          (RefreshTokenRepository.revoke_token l t rby now).1 t =
        some (RefreshTokenRepository.applyRevokeSet now rby d)) ∧
    (∀ d t0, RefreshTokenRepository.get_by_token l t = some d →
      d.revoked_at = some t0 → t0 ≠ now →
      (RefreshTokenRepository.revoke_token l t rby now).2 = true) := by
  refine ⟨RefreshTokenRepository.updateFirst_snd_iff _ _ l,
    fun d h => RefreshTokenRepository.get_by_token_revoke_token l t rby now d h,
    fun d t0 hfind hra hne => ?_⟩
  refine (RefreshTokenRepository.updateFirst_snd_iff _ _ l).mpr
    ⟨d, hfind, fun heq => hne ?_⟩
  have : (RefreshTokenRepository.applyRevokeSet now rby d).revoked_at
      = d.revoked_at := by rw [heq]
  rw [RefreshTokenRepository.applyRevokeSet_revoked_at, hra] at this
  exact (Option.some.inj this).symm

/-- An already-revoked document (as left behind by a rotation at time 5). -/
def sampleRevoked : RefreshTokenRec :=
  { id := 1, user_id := "alice", token := "R", expires_at := 1000,
    created_at := 0, revoked := true, revoked_at := some 5,
    replaced_by_token := some "R2" }

/-- Concrete instantiation of the amended C6 theorem: re-revoking
`sampleRevoked` at time 9 returns true. -/
theorem C6_amended_witness :
    (RefreshTokenRepository.revoke_token [sampleRevoked] "R" none 9).2 = true :=
  (C6_amended_revoke_semantics [sampleRevoked] "R" none 9).2.2
    sampleRevoked 5 (by decide) rfl (by decide)

/-- Claim C10: revoking with no replacement argument (as `logout` does)
leaves the stored `replaced_by_token` pointer unchanged, while every revoke
call rewrites `revoked_at` with the current call time; `logout` revokes the
presented token with no replacement. -/
theorem C10_revoke_none_frame (l : Ledger) (t : String) (now : Nat) :
    (∀ d, RefreshTokenRepository.get_by_token l t = some d →
      RefreshTokenRepository.get_by_token
          (RefreshTokenRepository.revoke_token l t none now).1 t =
        some { d with revoked := true, revoked_at := some now }) ∧
    (∀ rby d, RefreshTokenRepository.get_by_token l t = some d →
      ∃ r, RefreshTokenRepository.get_by_token
          (RefreshTokenRepository.revoke_token l t rby now).1 t = some r ∧
        r.revoked_at = some now ∧ r.revoked = true ∧
        (rby = none → r.replaced_by_token = d.replaced_by_token)) ∧
    logout_handler l t now =
      ("Logged out successfully",
       (RefreshTokenRepository.revoke_token l t none now).1) := by
  refine ⟨fun d h => ?_, fun rby d h => ?_, rfl⟩
  · rw [RefreshTokenRepository.get_by_token_revoke_token l t none now d h,
      RefreshTokenRepository.applyRevokeSet_none]
  · refine ⟨RefreshTokenRepository.applyRevokeSet now rby d,
      RefreshTokenRepository.get_by_token_revoke_token l t rby now d h,
      RefreshTokenRepository.applyRevokeSet_revoked_at now rby d,
      RefreshTokenRepository.applyRevokeSet_revoked now rby d,
      fun hrby => ?_⟩
    rw [hrby, RefreshTokenRepository.applyRevokeSet_none]

/-- Concrete instantiation of the C10 theorem: logging out an
already-rotated token at time 9 keeps its forward pointer and stamps the new
revocation time. -/
theorem C10_witness :
    RefreshTokenRepository.get_by_token
        (RefreshTokenRepository.revoke_token [sampleRevoked] "R" none 9).1 "R" =
      some { sampleRevoked with revoked := true, revoked_at := some 9 } :=
  (C10_revoke_none_frame [sampleRevoked] "R" 9).1 sampleRevoked (by decide)

/-- Claim C2: `detect_token_reuse(T)` is true iff a record for T exists, is
revoked, and has a non-null replacement pointer; refresh with such a T
revokes every live token of the owning user and fails with the distinct
reuse-detected error, while refresh with a token revoked without a
replacement pointer (as logout leaves it) fails with the plain
invalid-or-expired error, never the reuse error, and leaves the ledger
untouched. -/
theorem C2_reuse_detection (st : Settings) (users : UserStore) (l : Ledger)
    (t : String) (xdev : Option String) (genTok : String) (now newId : Nat) :
    (RefreshTokenRepository.detect_token_reuse l t = true ↔
      ∃ d, RefreshTokenRepository.get_by_token l t = some d ∧
        d.revoked = true ∧ d.replaced_by_token ≠ none) ∧
    (∀ d, RefreshTokenRepository.get_by_token l t = some d →
      d.revoked = true → d.replaced_by_token ≠ none →
      refresh_handler st users l t xdev genTok now newId =
        (.error ⟨401, "Token reuse detected. All sessions have been revoked for security."⟩,
         (RefreshTokenRepository.revoke_all_user_tokens l d.user_id now).1) ∧
      ∀ r ∈ (refresh_handler st users l t xdev genTok now newId).2,
        r.user_id = d.user_id → r.revoked = true) ∧
    (∀ d, RefreshTokenRepository.get_by_token l t = some d →
      d.revoked = true → d.replaced_by_token = none →
      refresh_handler st users l t xdev genTok now newId =
        (.error ⟨401, "Invalid or expired refresh token"⟩, l)) := by
  refine ⟨RefreshTokenRepository.detect_token_reuse_iff l t, ?_, ?_⟩
  · intro d h hrev hrep
    have hdet : RefreshTokenRepository.detect_token_reuse l t = true :=
      (RefreshTokenRepository.detect_token_reuse_iff l t).mpr ⟨d, h, hrev, hrep⟩
    have heq : refresh_handler st users l t xdev genTok now newId =
        (.error ⟨401, "Token reuse detected. All sessions have been revoked for security."⟩,
         (RefreshTokenRepository.revoke_all_user_tokens l d.user_id now).1) := by
      unfold refresh_handler
      rw [hdet, h]
      simp
    refine ⟨heq, ?_⟩
    rw [heq]
    exact RefreshTokenRepository.revoke_all_revokes l d.user_id now
  · intro d h hrev hrep
    have hdet : RefreshTokenRepository.detect_token_reuse l t = false := by
      unfold RefreshTokenRepository.detect_token_reuse
      rw [h]
      simp [hrep]
    have hval : RefreshTokenRepository.is_valid l t now = false := by
      unfold RefreshTokenRepository.is_valid
      rw [h]
      simp [hrev]
    unfold refresh_handler
    rw [hdet, hval]
    simp

/-- Concrete instantiation of the C2 theorem: refreshing with the rotated,
revoked token `sampleRevoked` fails with the reuse error and revokes the
user's remaining live session. -/
theorem C2_witness :
    refresh_handler ⟨"secret", "HS256", 30, 7⟩ [] [sampleRevoked, sampleLive]
        "R" none "N" 10 2 =
      (.error ⟨401, "Token reuse detected. All sessions have been revoked for security."⟩,
       (RefreshTokenRepository.revoke_all_user_tokens
         [sampleRevoked, sampleLive] "alice" 10).1) :=
  ((C2_reuse_detection ⟨"secret", "HS256", 30, 7⟩ [] [sampleRevoked, sampleLive]
      "R" none "N" 10 2).2.1 sampleRevoked (by decide) rfl (by decide)).1

/-- The refresh-token document that a successful refresh inserts
(the value of `create_refresh_token` on the rotation path). -/
def rotationDoc (st : Settings) (d : RefreshTokenRec) (genTok : String)
    (xdev : Option String) (now newId : Nat) : RefreshTokenRec :=
  { id := newId, user_id := d.user_id, token := genTok,
    expires_at := now + st.REFRESH_TOKEN_EXPIRE_DAYS * 86400,
    created_at := now, revoked := false, revoked_at := none,
    replaced_by_token := none,
    device_id := if pyTruthy xdev then xdev else d.device_id }

/-- Claim C1: every refresh call with a token that passes the reuse and
validity checks issues a new access token and a new refresh token for the
presented token's owning user, and revokes the presented token with its
replacement pointer set to the new refresh token's string, so the presented
token ends up revoked with a non-null forward pointer.  `genTok` (the random
`secrets.token_urlsafe(64)` output) is assumed fresh and non-empty. -/
theorem C1_refresh_rotation (st : Settings) (users : UserStore) (l : Ledger)
    (t : String) (xdev : Option String) (genTok : String) (now newId : Nat)
    (hreuse : RefreshTokenRepository.detect_token_reuse l t = false)
    (hvalid : RefreshTokenRepository.is_valid l t now = true)
    (hfresh : RefreshTokenRepository.get_by_token l genTok = none)
    (hne : genTok ≠ "") :
    ∃ d newDoc l3,
      RefreshTokenRepository.get_by_token l t = some d ∧
      refresh_handler st users l t xdev genTok now newId =
        (.ok ⟨create_access_token st [("sub", Claim.str d.user_id)] none now,
              genTok, "bearer"⟩, l3) ∧
      RefreshTokenRepository.get_by_token l3 genTok = some newDoc ∧
      newDoc.user_id = d.user_id ∧ newDoc.revoked = false ∧
      RefreshTokenRepository.get_by_token l3 t =
        some { d with revoked := true, revoked_at := some now,
                      replaced_by_token := some genTok } := by
  obtain ⟨d, hfind, hrev, hexp⟩ :=
    (RefreshTokenRepository.is_valid_iff l t now).mp hvalid
  refine ⟨d, rotationDoc st d genTok xdev now newId,
    (RefreshTokenRepository.revoke_token
      (l ++ [rotationDoc st d genTok xdev now newId]) t (some genTok) now).1,
    hfind, ?_, ?_, rfl, rfl, ?_⟩
  · unfold refresh_handler
    rw [hreuse, hvalid, hfind]
    simp [RefreshTokenRepository.create_refresh_token, rotationDoc]
  · have htne : t ≠ genTok := by
      intro he
      rw [he, hfresh] at hfind
      exact Option.noConfusion hfind
    unfold RefreshTokenRepository.revoke_token
    rw [RefreshTokenRepository.updateFirst_append_of_found _ _ l _
      (by show (RefreshTokenRepository.get_by_token l t).isSome = true
          rw [hfind]
          rfl)]
    unfold RefreshTokenRepository.get_by_token
    rw [List.find?_append,
      RefreshTokenRepository.find?_updateFirst_of_none _ _ _
        (fun x => by simp [RefreshTokenRepository.applyRevokeSet_token]) l hfresh]
    simp [List.find?, rotationDoc]
  · have hfind2 : RefreshTokenRepository.get_by_token
        (l ++ [rotationDoc st d genTok xdev now newId]) t = some d := by
      unfold RefreshTokenRepository.get_by_token at hfind ⊢
      rw [List.find?_append, hfind]
      rfl
    rw [RefreshTokenRepository.get_by_token_revoke_token _ t (some genTok)
      now d hfind2]
    unfold RefreshTokenRepository.applyRevokeSet
    simp [pyTruthy, hne]

/-- Concrete instantiation of the C1 theorem: rotating the live token `R`
into the fresh token `N` at time 10. -/
theorem C1_witness :
    ∃ d newDoc l3,
      RefreshTokenRepository.get_by_token [sampleLive] "R" = some d ∧
      refresh_handler ⟨"secret", "HS256", 30, 7⟩ [] [sampleLive] "R" none
          "N" 10 2 =
        (.ok ⟨create_access_token ⟨"secret", "HS256", 30, 7⟩
                [("sub", Claim.str d.user_id)] none 10, "N", "bearer"⟩, l3) ∧
      RefreshTokenRepository.get_by_token l3 "N" = some newDoc ∧
      newDoc.user_id = d.user_id ∧ newDoc.revoked = false ∧
      RefreshTokenRepository.get_by_token l3 "R" =
        some { d with revoked := true, revoked_at := some 10,
                      replaced_by_token := some "N" } :=
  C1_refresh_rotation ⟨"secret", "HS256", 30, 7⟩ [] [sampleLive] "R" none
    "N" 10 2 (by decide) (by decide) (by decide) (by decide)

/-- Claim C3: every login attempt failing the credential check — unknown
email, identity without a password hash (OAuth-only account), or a
non-matching password — yields the identical error: same status (401) and
same message, so callers cannot distinguish a non-existent email from a
wrong password. -/
theorem C3_login_uniform_invalid_credentials (st : Settings)
    (vp : String → String → Bool) (users : UserStore) (l : Ledger)
    (email password : String) (xdev : Option String) (genTok : String)
    (now newId : Nat) :
    (UserRepository.get_by_email users email = none →
      login st vp users l email password xdev genTok now newId =
        .error ⟨401, "Incorrect email or password"⟩) ∧
    (∀ u, UserRepository.get_by_email users email = some u →
      pyTruthy u.hashed_password = false →
      login st vp users l email password xdev genTok now newId =
        .error ⟨401, "Incorrect email or password"⟩) ∧
    (∀ u h, UserRepository.get_by_email users email = some u →
      u.hashed_password = some h → h ≠ "" → vp password h = false →
      login st vp users l email password xdev genTok now newId =
        .error ⟨401, "Incorrect email or password"⟩) := by
  refine ⟨fun h => ?_, fun u hu hpw => ?_, fun u h hu hpw hne hvp => ?_⟩
  · unfold login
    rw [h]
  · unfold login
    rw [hu]
    simp [hpw]
  · unfold login
    rw [hu]
    simp [hpw, pyTruthy, hne, hvp]

/-- A verified password-holding user used to instantiate the theorems. -/
def sampleUser : UserRec :=
  { id := "u1", email := "a@x.com", full_name := "Alice",
    hashed_password := some "H", is_verified := true }

/-- Concrete instantiation of the C3 theorem: a wrong password for an
existing verified account yields the generic 401. -/
theorem C3_witness :
    login ⟨"secret", "HS256", 30, 7⟩ (fun _ _ => false) [sampleUser] []
        "a@x.com" "wrong" none "N" 10 1 =
      .error ⟨401, "Incorrect email or password"⟩ :=
  (C3_login_uniform_invalid_credentials ⟨"secret", "HS256", 30, 7⟩
      (fun _ _ => false) [sampleUser] [] "a@x.com" "wrong" none "N" 10 1).2.2
    sampleUser "H" (by decide) rfl (by decide) rfl

/-- Claim C4: for a stored identity with a password hash that matches, the
verification gate comes strictly after the credential check (failed
credentials give 401 even for an unverified account); an unverified account
fails with 403, and a verified one receives an access token with subject =
user id together with a newly persisted refresh token bound to the user id
and the optional device id. -/
theorem C4_login_verified_gate (st : Settings) (vp : String → String → Bool)
    (users : UserStore) (l : Ledger) (email password : String)
    (xdev : Option String) (genTok : String) (now newId : Nat)
    (u : UserRec) (h : String)
    (hfind : UserRepository.get_by_email users email = some u)
    (hpw : u.hashed_password = some h) (hne : h ≠ "") :
    (vp password h = true → u.is_verified = false →
      login st vp users l email password xdev genTok now newId =
        .error ⟨403, "Email not verified. Please check your email for verification link."⟩) ∧
    (vp password h = false → u.is_verified = false →
      login st vp users l email password xdev genTok now newId =
        .error ⟨401, "Incorrect email or password"⟩) ∧
    (vp password h = true → u.is_verified = true →
      login st vp users l email password xdev genTok now newId =
        .ok (⟨create_access_token st [("sub", Claim.str u.id)] none now,
              genTok, "bearer"⟩,
          l ++ [{ id := newId, user_id := u.id, token := genTok,
                  expires_at := now + st.REFRESH_TOKEN_EXPIRE_DAYS * 86400,
                  created_at := now, revoked := false, revoked_at := none,
                  replaced_by_token := none, device_id := xdev }])) := by
  refine ⟨fun hvp hver => ?_, fun hvp hver => ?_, fun hvp hver => ?_⟩ <;>
    (unfold login
     rw [hfind]
     simp [hpw, pyTruthy, hne, hvp, hver,
       RefreshTokenRepository.create_refresh_token])

/-- Concrete instantiation of the C4 theorem: a correct password on the
verified `sampleUser` returns the token pair and persists the refresh
token. -/
theorem C4_witness :
    login ⟨"secret", "HS256", 30, 7⟩ (fun p hh => p == "pw" && hh == "H")
        [sampleUser] [] "a@x.com" "pw" none "N" 10 1 =
      .ok (⟨create_access_token ⟨"secret", "HS256", 30, 7⟩
              [("sub", Claim.str "u1")] none 10, "N", "bearer"⟩,
        [{ id := 1, user_id := "u1", token := "N",
           expires_at := 10 + 7 * 86400, created_at := 10, revoked := false,
           revoked_at := none, replaced_by_token := none,
           device_id := none }]) :=
  (C4_login_verified_gate ⟨"secret", "HS256", 30, 7⟩
      (fun p hh => p == "pw" && hh == "H") [sampleUser] [] "a@x.com" "pw"
      none "N" 10 1 sampleUser "H" (by decide) rfl (by decide)).2.2
    (by decide) rfl

/-- Claim C9: the outcome of refresh depends only on the refresh-token
ledger: the handler never consults the credential store, so any two user
stores give identical results, and a valid refresh token still mints an
access token when no identity at all exists for its user id. -/
theorem C9_refresh_ignores_credential_store (st : Settings)
    (users1 users2 : UserStore) (l : Ledger) (t : String)
    (xdev : Option String) (genTok : String) (now newId : Nat) :
    refresh_handler st users1 l t xdev genTok now newId =
      refresh_handler st users2 l t xdev genTok now newId ∧
    (RefreshTokenRepository.detect_token_reuse l t = false →
      RefreshTokenRepository.is_valid l t now = true →
      ∃ pair l3, refresh_handler st [] l t xdev genTok now newId =
        (.ok pair, l3)) := by
  refine ⟨rfl, fun hreuse hvalid => ?_⟩
  obtain ⟨d, hfind, -, -⟩ :=
    (RefreshTokenRepository.is_valid_iff l t now).mp hvalid
  refine ⟨⟨create_access_token st [("sub", Claim.str d.user_id)] none now,
      genTok, "bearer"⟩,
    (RefreshTokenRepository.revoke_token
      (l ++ [rotationDoc st d genTok xdev now newId]) t (some genTok) now).1,
    ?_⟩
  unfold refresh_handler
  rw [hreuse, hvalid, hfind]
  simp [RefreshTokenRepository.create_refresh_token, rotationDoc]

/-- Concrete instantiation of the C9 theorem: the valid token `R` refreshes
successfully against an empty credential store. -/
theorem C9_witness :
    ∃ pair l3,
      refresh_handler ⟨"secret", "HS256", 30, 7⟩ [] [sampleLive] "R" none
          "N" 10 2 = (.ok pair, l3) :=
  (C9_refresh_ignores_credential_store ⟨"secret", "HS256", 30, 7⟩ [] []
      [sampleLive] "R" none "N" 10 2).2 (by decide) (by decide)

/-- Claim C7: round trip of the access-token signer: a token issued for a
subject with a ttl carries exactly the subject and expiry claims; verifying
it before the expiry returns exactly the embedded subject, and verifying it
after the embedded expiry fails with the Expired error. -/
theorem C7_access_token_roundtrip (st : Settings) (subject : String)
    (ttl issued t : Nat) (httl : ttl ≠ 0) :
    ((create_access_token st [("sub", Claim.str subject)] (some ttl)
        issued).payload =
      [("sub", Claim.str subject), ("exp", Claim.time (issued + ttl))]) ∧
    (t ≤ issued + ttl →
      verify_access_token st
        (create_access_token st [("sub", Claim.str subject)] (some ttl)
          issued) t = .ok subject) ∧
    (issued + ttl < t →
      verify_access_token st
        (create_access_token st [("sub", Claim.str subject)] (some ttl)
          issued) t = .error .expired) := by
  have hpay : create_access_token st [("sub", Claim.str subject)] (some ttl)
      issued =
      Jwt.mk [("sub", Claim.str subject), ("exp", Claim.time (issued + ttl))]
        st.SECRET_KEY st.ALGORITHM := by
    unfold create_access_token Jwt.encode Jwt.dictUpdate
    simp [httl]
  refine ⟨by rw [hpay], fun hle => ?_, fun hlt => ?_⟩
  · rw [hpay]
    unfold verify_access_token Jwt.decode
    simp [List.find?, Nat.not_lt.mpr hle]
  · rw [hpay]
    unfold verify_access_token Jwt.decode
    simp [List.find?, hlt]

/-- Concrete instantiation of the C7 theorem: a token issued at time 100
with a 900-second ttl verifies to its subject at time 500 and is expired at
time 1001. -/
theorem C7_witness :
    verify_access_token ⟨"secret", "HS256", 30, 7⟩
        (create_access_token ⟨"secret", "HS256", 30, 7⟩
          [("sub", Claim.str "u1")] (some 900) 100) 500 = .ok "u1" ∧
    verify_access_token ⟨"secret", "HS256", 30, 7⟩
        (create_access_token ⟨"secret", "HS256", 30, 7⟩
          [("sub", Claim.str "u1")] (some 900) 100) 1001 =
      .error .expired :=
  ⟨(C7_access_token_roundtrip ⟨"secret", "HS256", 30, 7⟩ "u1" 900 100 500
      (by decide)).2.1 (by decide),
   (C7_access_token_roundtrip ⟨"secret", "HS256", 30, 7⟩ "u1" 900 100 1001
      (by decide)).2.2 (by decide)⟩

/-- Claim C8: the OAuth callback's update of an existing identity is
monotone in the verification flag — it is promoted to true only when the
provider asserts a verified email and the local flag was false, and a true
flag is never demoted — and it fills in missing OAuth linkage fields and a
missing avatar without ever overwriting ones already set (linkage fields
come as a coherent provider/provider-id pair). -/
theorem C8_oauth_linking_monotone (user : UserRec) (gid : String)
    (av : Option String) (ev : Bool)
    (hcoh : pyTruthy user.oauth_provider = pyTruthy user.oauth_provider_id) :
    ((google_update_existing user gid av ev).is_verified
        = (user.is_verified || ev)) ∧
    (pyTruthy user.oauth_provider = true ∨
        pyTruthy user.oauth_provider_id = true →
      (google_update_existing user gid av ev).oauth_provider
          = user.oauth_provider ∧
        (google_update_existing user gid av ev).oauth_provider_id
          = user.oauth_provider_id) ∧
    (pyTruthy user.oauth_provider = false →
      (google_update_existing user gid av ev).oauth_provider
          = some "google" ∧
        (google_update_existing user gid av ev).oauth_provider_id
          = some gid) ∧
    (pyTruthy user.avatar_url = true →
      (google_update_existing user gid av ev).avatar_url = user.avatar_url) ∧
    (pyTruthy user.avatar_url = false → pyTruthy av = true →
      (google_update_existing user gid av ev).avatar_url = av) := by
  by_cases h1 : pyTruthy user.oauth_provider = true <;>
  by_cases h2 : pyTruthy user.avatar_url = true <;>
  by_cases h3 : pyTruthy av = true <;>
  by_cases hev : ev = true <;>
  by_cases hver : user.is_verified = true <;>
    simp_all [google_update_existing]

/-- An existing password account with no OAuth link, no avatar, and an
unverified email. -/
def sampleUnlinkedUser : UserRec :=
  { id := "u2", email := "b@x.com", full_name := "Bob",
    hashed_password := some "H2", is_verified := false }

/-- Concrete instantiation of the C8 theorem: linking Google to
`sampleUnlinkedUser` fills the linkage fields and promotes verification. -/
theorem C8_witness :
    (google_update_existing sampleUnlinkedUser "g123" (some "pic")
        true).is_verified = (sampleUnlinkedUser.is_verified || true) ∧
    (google_update_existing sampleUnlinkedUser "g123" (some "pic")
        true).oauth_provider = some "google" :=
  ⟨(C8_oauth_linking_monotone sampleUnlinkedUser "g123" (some "pic") true
      rfl).1,
   ((C8_oauth_linking_monotone sampleUnlinkedUser "g123" (some "pic") true
      rfl).2.2.1 rfl).1⟩
